import Mathlib

/- Verification of the message-matching core of the tg-dushnila bot
   (src/dukhota/message.py): the Message entity, its construction-time
   derived fields (chat id, fingerprint, significant text), and the
   comparison cascade implemented in Message.__eq__.

   Modelling conventions of this shallow embedding:
   - Python optional values are Option; Python truthiness is made explicit
     by the truthy* helpers (None, 0, "", [] and False are falsy);
   - raised exceptions are Except.error carrying the exception class name;
   - the NotImplemented sentinel returned by __eq__ has its own result
     constructor, next to the two boolean outcomes;
   - machine floats are exact rationals; the three inline float thresholds
     0.75, 0.66 and 0.33 become 3/4, 33/50 and 33/100;
   - logging calls are side-effect free and are dropped. -/

/-- The pydantic model Message: the nine raw attributes plus the three
derived fields the constructor fills in (fingerprint, significant_text,
chat_id), all Optional exactly as declared in the source. -/
structure Message where
  from_id : Option Int
  channel_id : Option Int
  message_id : Option Int
  from_channel_id : Option Int
  from_message_id : Option Int
  forward_from_id : Option Int
  text : Option String
  caption : Option String
  media_ids : Option (List String)
  fingerprint : Option String
  significant_text : Option Bool
  chat_id : Option Int

/-- Python truthiness of an optional integer: None and 0 are falsy. -/
def truthyInt : Option Int → Bool
  | none => false
  | some n => n != 0

/-- Python truthiness of an optional string: None and "" are falsy. -/
def truthyStr : Option String → Bool
  | none => false
  | some s => s != ""

/-- Python truthiness of an optional list: None and [] are falsy. -/
def truthyList : Option (List String) → Bool
  | none => false
  | some l => !l.isEmpty

/-- Python truthiness of an optional boolean: None and False are falsy. -/
def truthyBool : Option Bool → Bool
  | none => false
  | some b => b

/-- The expression `self.text or self.caption or ""` that the source uses
both in __gen_fingerprint and in __eq__. -/
def effText (m : Message) : String :=
  if truthyStr m.text then m.text.getD ""
  else if truthyStr m.caption then m.caption.getD ""
  else ""

/-- Python str() of an optional integer: str(None) is the literal "None". -/
def pyStrOfOptInt : Option Int → String
  | none => "None"
  | some n => toString n

/-- Python int(s) on the string shapes reachable in chat-id derivation: an
optional sign followed by decimal digits parses; anything else ("None",
"", a digitless remainder) raises ValueError.  (Python's int() also skips
surrounding whitespace and underscores between digits; no such string
reaches this call, since its input is str() of an Optional[int] with the
substring "-100" removed.) -/
def pyParseInt (s : String) : Except String Int :=
  let split : Bool × List Char :=
    match s.data with
    | '-' :: rest => (true, rest)
    | '+' :: rest => (false, rest)
    | l => (false, l)
  if split.2.isEmpty || split.2.any (fun c => !c.isDigit) then .error "ValueError"
  else
    let n : Nat := split.2.foldl (fun acc c => 10 * acc + (c.toNat - 48)) 0
    .ok (if split.1 then -(n : Int) else (n : Int))

/-- Python str.replace(pat, rep) over code points: every non-overlapping
occurrence of the (non-empty) pattern, scanning left to right.  The fuel
decreases once per step while at least one character is consumed, so the
length of the scanned list is always enough. -/
def replaceAllFuel (pat rep : List Char) : Nat → List Char → List Char
  | 0, s => s
  | _, [] => []
  | fuel + 1, c :: rest =>
    if decide (0 < pat.length) && pat.isPrefixOf (c :: rest) then
      rep ++ replaceAllFuel pat rep fuel ((c :: rest).drop pat.length)
    else c :: replaceAllFuel pat rep fuel rest

def replaceAll (pat rep s : List Char) : List Char :=
  replaceAllFuel pat rep s.length s

/-- Message.__chat_id: int(str(self.channel_id).replace("-100", "")). -/
def chatIdOf (channel_id : Option Int) : Except String Int :=
  pyParseInt (String.mk (replaceAll "-100".data "".data (pyStrOfOptInt channel_id).data))

/- SHA-256, as called through hashlib.sha256(...).hexdigest().  A pure
big-endian implementation over byte lists (bytes are Nat below 256, words
Nat below 2^32). -/

/-- Big-endian bytes of a 32-bit word. -/
def beBytes4 (n : Nat) : List Nat :=
  [(n >>> 24) % 256, (n >>> 16) % 256, (n >>> 8) % 256, n % 256]

/-- Big-endian bytes of a 64-bit length field. -/
def beBytes8 (n : Nat) : List Nat :=
  [(n >>> 56) % 256, (n >>> 48) % 256, (n >>> 40) % 256, (n >>> 32) % 256,
   (n >>> 24) % 256, (n >>> 16) % 256, (n >>> 8) % 256, n % 256]

/-- UTF-8 encoding of one code point, as str.encode("utf-8") does. -/
def utf8Char (c : Char) : List Nat :=
  let n := c.toNat
  if n < 128 then [n]
  else if n < 2048 then [192 + n / 64, 128 + n % 64]
  else if n < 65536 then [224 + n / 4096, 128 + (n / 64) % 64, 128 + n % 64]
  else [240 + n / 262144, 128 + (n / 4096) % 64, 128 + (n / 64) % 64, 128 + n % 64]

def utf8Bytes (s : String) : List Nat :=
  (s.data.map utf8Char).flatten

/-- 32-bit right rotation of a word below 2^32. -/
def rotr32 (r x : Nat) : Nat :=
  ((x >>> r) ||| (x <<< (32 - r))) % 2 ^ 32

def bSig0 (x : Nat) : Nat := rotr32 2 x ^^^ rotr32 13 x ^^^ rotr32 22 x

def bSig1 (x : Nat) : Nat := rotr32 6 x ^^^ rotr32 11 x ^^^ rotr32 25 x

def sSig0 (x : Nat) : Nat := rotr32 7 x ^^^ rotr32 18 x ^^^ (x >>> 3)

def sSig1 (x : Nat) : Nat := rotr32 17 x ^^^ rotr32 19 x ^^^ (x >>> 10)

/-- The 64 SHA-256 round constants, in decimal. -/
def sha256K : List Nat :=
  [1116352408, 1899447441, 3049323471, 3921009573, 961987163, 1508970993,
   2453635748, 2870763221, 3624381080, 310598401, 607225278, 1426881987,
   1925078388, 2162078206, 2614888103, 3248222580, 3835390401, 4022224774,
   264347078, 604807628, 770255983, 1249150122, 1555081692, 1996064986,
   2554220882, 2821834349, 2952996808, 3210313671, 3336571891, 3584528711,
   113926993, 338241895, 666307205, 773529912, 1294757372, 1396182291,
   1695183700, 1986661051, 2177026350, 2456956037, 2730485921, 2820302411,
   3259730800, 3345764771, 3516065817, 3600352804, 4094571909, 275423344,
   430227734, 506948616, 659060556, 883997877, 958139571, 1322822218,
   1537002063, 1747873779, 1955562222, 2024104815, 2227730452, 2361852424,
   2428436474, 2756734187, 3204031479, 3329325298]

/-- The eight working variables / hash words. -/
structure Hash8 where
  a : Nat
  b : Nat
  c : Nat
  d : Nat
  e : Nat
  f : Nat
  g : Nat
  h : Nat

/-- The eight initial hash values, in decimal. -/
def initH : Hash8 :=
  ⟨1779033703, 3144134277, 1013904242, 2773480762,
   1359893119, 2600822924, 528734635, 1541459225⟩

/-- SHA-256 padding: 0x80, zeros to 56 mod 64, 8-byte big-endian bit length. -/
def padBytes (msg : List Nat) : List Nat :=
  msg ++ [128] ++ List.replicate ((64 - (msg.length + 9) % 64) % 64) 0 ++ beBytes8 (8 * msg.length)

def toChunks (l : List Nat) : List (List Nat) :=
  if h : l.isEmpty then []
  else l.take 64 :: toChunks (l.drop 64)
termination_by l.length
decreasing_by
  simp [List.isEmpty_iff] at h
  have : 0 < l.length := List.length_pos.mpr h
  simp only [List.length_drop]
  omega

/-- Big-endian 32-bit word number i of a 64-byte chunk. -/
def beWord (bs : List Nat) (i : Nat) : Nat :=
  bs.getD (4 * i) 0 * 16777216 + bs.getD (4 * i + 1) 0 * 65536 +
    bs.getD (4 * i + 2) 0 * 256 + bs.getD (4 * i + 3) 0

/-- The 64-entry message schedule of one chunk. -/
def msgSchedule (chunk : List Nat) : List Nat :=
  let w16 := (List.range 16).map (beWord chunk)
  (List.range 48).foldl (fun w _ =>
    let i := w.length
    w ++ [(w.getD (i - 16) 0 + sSig0 (w.getD (i - 15) 0) + w.getD (i - 7) 0 +
      sSig1 (w.getD (i - 2) 0)) % 2 ^ 32]) w16

/-- One SHA-256 round on the eight working variables. -/
def roundStep (st : Hash8) (kw : Nat × Nat) : Hash8 :=
  let ch := (st.e &&& st.f) ^^^ ((4294967295 ^^^ st.e) &&& st.g)
  let t1 := (st.h + bSig1 st.e + ch + kw.1 + kw.2) % 2 ^ 32
  let mj := (st.a &&& st.b) ^^^ (st.a &&& st.c) ^^^ (st.b &&& st.c)
  let t2 := (bSig0 st.a + mj) % 2 ^ 32
  ⟨(t1 + t2) % 2 ^ 32, st.a, st.b, st.c, (st.d + t1) % 2 ^ 32, st.e, st.f, st.g⟩

def compressChunk (hs : Hash8) (chunk : List Nat) : Hash8 :=
  let w := msgSchedule chunk
  let st := (sha256K.zip w).foldl roundStep hs
  ⟨(hs.a + st.a) % 2 ^ 32, (hs.b + st.b) % 2 ^ 32, (hs.c + st.c) % 2 ^ 32,
   (hs.d + st.d) % 2 ^ 32, (hs.e + st.e) % 2 ^ 32, (hs.f + st.f) % 2 ^ 32,
   (hs.g + st.g) % 2 ^ 32, (hs.h + st.h) % 2 ^ 32⟩

/-- The sixteen lowercase hexadecimal digits. -/
def hexAlphabet : List Char :=
  "0123456789abcdef".data

def hexDigit (n : Nat) : Char :=
  hexAlphabet.getD n '0'

def byteHex (b : Nat) : List Char :=
  [hexDigit (b / 16), hexDigit (b % 16)]

def bytesToHex (bs : List Nat) : List Char :=
  (bs.map byteHex).flatten

/-- hashlib.sha256(msg).hexdigest(): the 64-character lowercase hex digest. -/
def sha256Hex (msg : List Nat) : String :=
  let hv := (toChunks (padBytes msg)).foldl compressChunk initH
  String.mk (bytesToHex (([hv.a, hv.b, hv.c, hv.d, hv.e, hv.f, hv.g, hv.h].map beBytes4).flatten))

/-- Python string slicing s[:n], by code points. -/
def strTake (s : String) (n : Nat) : String :=
  String.mk (s.data.take n)

/-- Message.__gen_fingerprint.  ",".join(self.media_ids) raises TypeError
when media_ids is None; otherwise the four parts are joined with ";",
hashed, and the hex digest truncated to 16 characters. -/
def genFingerprint (m : Message) : Except String String :=
  match m.media_ids with
  | none => .error "TypeError"
  | some mids =>
    let fingerprint_parts :=
      [pyStrOfOptInt m.from_channel_id, pyStrOfOptInt m.from_message_id,
       effText m, String.intercalate "," mids]
    .ok (strTake (sha256Hex (utf8Bytes (String.intercalate ";" fingerprint_parts))) 16)

/-- Message.__init__: pydantic sets the nine raw attributes (the derived
fields default to None / False), then chat_id, fingerprint and
significant_text are computed in that order; an exception in a step
propagates out of the constructor. -/
def mkMessage (from_id channel_id message_id from_channel_id from_message_id
    forward_from_id : Option Int) (text caption : Option String)
    (media_ids : Option (List String)) : Except String Message :=
  let base : Message :=
    { from_id := from_id, channel_id := channel_id, message_id := message_id,
      from_channel_id := from_channel_id, from_message_id := from_message_id,
      forward_from_id := forward_from_id, text := text, caption := caption,
      media_ids := media_ids, fingerprint := none, significant_text := some false,
      chat_id := none }
  do
    let chat ← chatIdOf channel_id
    let fp ← genFingerprint base
    let sig := decide (64 < (effText base).length)
    .ok { base with chat_id := some chat, fingerprint := some fp, significant_text := some sig }

/-- The self-forward test of is_comparable:
forward_from_id and forward_from_id == from_id (truthiness of the chain). -/
def forwardSelfB (m : Message) : Bool :=
  truthyInt m.forward_from_id && decide (m.forward_from_id = m.from_id)

/-- Message.is_comparable: ids present (truthy), significant content
(media or significant text), and not a self-forward. -/
def is_comparable (m : Message) : Bool :=
  truthyInt m.channel_id && truthyInt m.message_id &&
    (truthyList m.media_ids || truthyBool m.significant_text) && !forwardSelfB m

/-- Rule 2 of the cascade: self.channel_id and
self.channel_id == other.channel_id and self.message_id == other.message_id. -/
def sameMessageB (a b : Message) : Bool :=
  truthyInt a.channel_id && decide (a.channel_id = b.channel_id) &&
    decide (a.message_id = b.message_id)

/-- Rule 3 of the cascade: self.from_channel_id and
self.from_channel_id == other.from_channel_id and
self.from_message_id == other.from_message_id. -/
def sameForwardedB (a b : Message) : Bool :=
  truthyInt a.from_channel_id && decide (a.from_channel_id = b.from_channel_id) &&
    decide (a.from_message_id = b.from_message_id)

/- difflib.SequenceMatcher(None, a, b).ratio(), over code-point lists.
No junk predicate is supplied, so bjunk stays empty; the autojunk
popularity heuristic (second sequence of length at least 200) is kept.
The float ratio 2*M/T is represented exactly as a rational. -/

/-- Ascending positions of c in b (the b2j chains before autojunk). -/
def charIndices (b : List Char) (c : Char) : List Nat :=
  (List.range b.length).filter (fun j => b.get? j == some c)

/-- The autojunk-popular elements of b: only when len(b) >= 200, the
elements occurring more than len(b) // 100 + 1 times. -/
def popularChars (b : List Char) : List Char :=
  if 200 ≤ b.length then
    b.dedup.filter (fun c => b.length / 100 + 1 < (charIndices b c).length)
  else []

/-- b2j with popular elements purged, as __chain_b leaves it. -/
def b2jOf (b : List Char) (c : Char) : List Nat :=
  if c ∈ popularChars b then [] else charIndices b c

/-- a[i] == b[j] with both indices in range (list indexing never goes out
of range on the regions the matcher visits). -/
def chEq (a b : List Char) (i j : Nat) : Bool :=
  match a.get? i, b.get? j with
  | some x, some y => x == y
  | _, _ => false

/-- The result triple (besti, bestj, bestsize) of find_longest_match. -/
structure Flm where
  besti : Nat
  bestj : Nat
  bestsize : Nat

/-- The backward extension loop of find_longest_match (bjunk is empty, so
the isbjunk guard is vacuous). -/
def extendBack (a b : List Char) (alo blo : Nat) (besti bestj bestsize : Nat) : Flm :=
  if h : alo < besti ∧ blo < bestj ∧ chEq a b (besti - 1) (bestj - 1) = true then
    extendBack a b alo blo (besti - 1) (bestj - 1) (bestsize + 1)
  else ⟨besti, bestj, bestsize⟩
termination_by besti
decreasing_by omega

/-- The forward extension loop of find_longest_match. -/
def extendFwd (a b : List Char) (ahi bhi : Nat) (besti bestj bestsize : Nat) : Nat :=
  if h : besti + bestsize < ahi ∧ bestj + bestsize < bhi ∧
      chEq a b (besti + bestsize) (bestj + bestsize) = true then
    extendFwd a b ahi bhi besti bestj (bestsize + 1)
  else bestsize
termination_by ahi - (besti + bestsize)
decreasing_by omega

/-- find_longest_match on the region a[alo:ahi] x b[blo:bhi]: the j2len
dynamic programme (one row per i, keyed by j), keeping the first longest
run, then the two extension loops.  j2len.get(j-1, 0) reads the previous
row; at j = 0 Python reads the absent key -1. -/
def findLongestMatch (a b : List Char) (alo ahi blo bhi : Nat) : Flm :=
  let step := fun (acc : (Nat → Nat) × Flm) (i : Nat) =>
    let j2old := acc.1
    let js := (b2jOf b (a.getD i 'a')).filter (fun j => decide (blo ≤ j) && decide (j < bhi))
    let inner := js.foldl (fun (acc2 : (Nat → Nat) × Flm) (j : Nat) =>
      let k := (if j = 0 then 0 else j2old (j - 1)) + 1
      let row := fun x => if x = j then k else acc2.1 x
      let best := if acc2.2.bestsize < k then Flm.mk (i + 1 - k) (j + 1 - k) k else acc2.2
      (row, best)) ((fun _ => 0), acc.2)
    inner
  let dp := (List.range' alo (ahi - alo)).foldl step ((fun _ => 0), ⟨alo, blo, 0⟩)
  let ext := extendBack a b alo blo dp.2.besti dp.2.bestj dp.2.bestsize
  ⟨ext.besti, ext.bestj, extendFwd a b ahi bhi ext.besti ext.bestj ext.bestsize⟩

/-- Total matched size over get_matching_blocks' recursion tree: the
longest block of a region, then the sub-regions to its left and right.
The fuel only bounds the recursion depth; a.length + b.length + 1 is more
than any region of the top-level call can use. -/
def matchesIn (a b : List Char) : Nat → Nat × Nat × Nat × Nat → Nat
  | 0, _ => 0
  | fuel + 1, (alo, ahi, blo, bhi) =>
    let m := findLongestMatch a b alo ahi blo bhi
    if m.bestsize = 0 then 0
    else
      m.bestsize +
        (if alo < m.besti ∧ blo < m.bestj then matchesIn a b fuel (alo, m.besti, blo, m.bestj) else 0) +
        (if m.besti + m.bestsize < ahi ∧ m.bestj + m.bestsize < bhi then
          matchesIn a b fuel (m.besti + m.bestsize, ahi, m.bestj + m.bestsize, bhi) else 0)

/-- SequenceMatcher(None, a, b).ratio() = 2*M / (len(a)+len(b)), and 1.0
for two empty sequences, as an exact rational. -/
def seqRatioQ (a b : List Char) : ℚ :=
  let m := matchesIn a b (a.length + b.length + 1) (0, a.length, 0, b.length)
  if a.length + b.length = 0 then 1 else (2 * m : ℚ) / ((a.length : ℚ) + (b.length : ℚ))

/-- same_text_ratio of __eq__: 0.0 when either effective text is empty,
else the SequenceMatcher ratio of the two effective texts. -/
def sameTextRatioQ (a b : Message) : ℚ :=
  if effText a = "" ∨ effText b = "" then 0
  else seqRatioQ (effText a).data (effText b).data

/-- media_ratio_limit = 0.66. -/
def mediaRatioLimit : ℚ := 33 / 50

/-- text_ratio_media_limit = 0.33. -/
def textRatioMediaLimit : ℚ := 33 / 100

/-- text_ratio_limit: 0.75, replaced by 0.66 when self.from_channel_id and
self.from_message_id are both truthy. -/
def textRatioLimit (a : Message) : ℚ :=
  if truthyInt a.from_channel_id && truthyInt a.from_message_id then 33 / 50 else 3 / 4

/-- same_media_ratio: the number of distinct media ids shared by both
lists, over the length of the longer list. -/
def sameMediaRatioQ (a b : Message) : ℚ :=
  let al := a.media_ids.getD []
  let bl := b.media_ids.getD []
  ((al.dedup.filter (fun x => decide (x ∈ bl))).length : ℚ) / ((max al.length bl.length : Nat) : ℚ)

/-- The outcomes of Message.__eq__: the two booleans and the
NotImplemented sentinel it returns for an incomparable left operand. -/
inductive EqResult where
  | matched
  | noMatch
  | notImplemented
deriving DecidableEq

/-- Message.__eq__(self, other): the ordered cascade.  Only self's
comparability is tested; list(set(...)) over other's media raises
TypeError when other.media_ids is None and self.media_ids is truthy. -/
def eqMsg (a b : Message) : Except String EqResult :=
  if !is_comparable a then .ok .notImplemented
  else if a.fingerprint = b.fingerprint then .ok .matched
  else if sameMessageB a b then .ok .matched
  else if sameForwardedB a b then .ok .matched
  else if truthyBool a.significant_text && decide (textRatioLimit a < sameTextRatioQ a b) then
    .ok .matched
  else if truthyList a.media_ids then
    match b.media_ids with
    | none => .error "TypeError"
    | some _ =>
      if truthyBool a.significant_text && decide (textRatioMediaLimit < sameTextRatioQ a b) then
        .ok .matched
      else if mediaRatioLimit ≤ sameMediaRatioQ a b then .ok .matched
      else .ok .noMatch
  else .ok .noMatch

/- Helper lemmas about the hex digest and the text/caption fallback. -/

theorem bytesToHex_length (bs : List Nat) : (bytesToHex bs).length = 2 * bs.length := by
  induction bs with
  | nil => rfl
  | cons b t ih =>
    simp [bytesToHex, byteHex] at ih ⊢
    omega

theorem sha256Hex_length (msg : List Nat) : (sha256Hex msg).length = 64 := by
  unfold sha256Hex
  show (bytesToHex _).length = 64
  rw [bytesToHex_length]
  simp [beBytes4]

theorem hexDigit_mem (n : Nat) : hexDigit n ∈ hexAlphabet := by
  unfold hexDigit
  rcases Nat.lt_or_ge n 16 with h | h
  · interval_cases n <;> decide
  · rw [List.getD_eq_default]
    · decide
    · simpa [hexAlphabet] using h

theorem bytesToHex_mem (bs : List Nat) (c : Char) (h : c ∈ bytesToHex bs) : c ∈ hexAlphabet := by
  unfold bytesToHex at h
  rw [List.mem_flatten] at h
  obtain ⟨l, hl, hc⟩ := h
  rw [List.mem_map] at hl
  obtain ⟨b, _, rfl⟩ := hl
  unfold byteHex at hc
  simp only [List.mem_cons, List.not_mem_nil, or_false] at hc
  rcases hc with rfl | rfl <;> exact hexDigit_mem _

theorem sha256Hex_chars (msg : List Nat) (c : Char) (h : c ∈ (sha256Hex msg).data) :
    c ∈ hexAlphabet := by
  unfold sha256Hex at h
  exact bytesToHex_mem _ _ h

theorem effText_spec (m : Message) :
    effText m =
      (if m.text.getD "" ≠ "" then m.text.getD ""
       else if m.caption.getD "" ≠ "" then m.caption.getD "" else "") := by
  unfold effText
  rcases m.text with _ | t <;> rcases m.caption with _ | c <;>
    simp [truthyStr, Option.getD, bne_iff_ne]

/-- The preimage of the fingerprint digest as claim C5 words it: the string
form of fromChannelId, the string form of fromMessageId, text if non-empty
else caption if non-empty else the empty string, and the comma-joined
mediaIds in their given order, joined with ";" separators in this order. -/
def specFingerprintInput (m : Message) (mids : List String) : String :=
  pyStrOfOptInt m.from_channel_id ++ ";" ++ pyStrOfOptInt m.from_message_id ++ ";" ++
    (if m.text.getD "" ≠ "" then m.text.getD ""
     else if m.caption.getD "" ≠ "" then m.caption.getD "" else "") ++ ";" ++
    String.intercalate "," mids

/-- C5 (confirmed): for every message whose media_ids is a list, the stored
fingerprint is exactly the first 16 characters of the lowercase hexadecimal
SHA-256 digest of the ";"-joined parts in the claimed fixed order, and any
fingerprint the generator produces has 16 characters, all of them lowercase
hex digits. -/
theorem fingerprint_is_truncated_sha256 (m : Message) (mids : List String)
    (h : m.media_ids = some mids) :
    genFingerprint m = .ok (strTake (sha256Hex (utf8Bytes (specFingerprintInput m mids))) 16) ∧
    ∀ s, genFingerprint m = .ok s → s.length = 16 ∧ ∀ c ∈ s.data, c ∈ hexAlphabet := by
  have hmain : genFingerprint m =
      .ok (strTake (sha256Hex (utf8Bytes (specFingerprintInput m mids))) 16) := by
    unfold genFingerprint
    rw [h]
    dsimp only
    have : String.intercalate ";"
        [pyStrOfOptInt m.from_channel_id, pyStrOfOptInt m.from_message_id,
         effText m, String.intercalate "," mids] = specFingerprintInput m mids := by
      show pyStrOfOptInt m.from_channel_id ++ ";" ++ pyStrOfOptInt m.from_message_id ++ ";" ++
        effText m ++ ";" ++ String.intercalate "," mids = _
      rw [effText_spec]
      rfl
    rw [this]
  refine ⟨hmain, fun s hs => ?_⟩
  rw [hmain] at hs
  injection hs with hs
  subst hs
  constructor
  · show (List.take 16 _).length = 16
    rw [List.length_take]
    have h64 : (sha256Hex (utf8Bytes (specFingerprintInput m mids))).data.length = 64 :=
      sha256Hex_length _
    omega
  · intro c hc
    have : c ∈ (sha256Hex (utf8Bytes (specFingerprintInput m mids))).data :=
      List.take_subset _ _ hc
    exact sha256Hex_chars _ _ this

/-- C5 witness: a concrete message with media present. -/
def msgC5 : Message :=
  { from_id := none, channel_id := some (-100555), message_id := some 7,
    from_channel_id := some 10, from_message_id := some 99,
    forward_from_id := none, text := some "hello", caption := none,
    media_ids := some ["m1", "m2"], fingerprint := none,
    significant_text := some false, chat_id := none }

theorem fingerprint_is_truncated_sha256_witness :
    msgC5.media_ids = some ["m1", "m2"] ∧
      (genFingerprint msgC5 =
        .ok (strTake (sha256Hex (utf8Bytes (specFingerprintInput msgC5 ["m1", "m2"]))) 16) ∧
      ∀ s, genFingerprint msgC5 = .ok s → s.length = 16 ∧ ∀ c ∈ s.data, c ∈ hexAlphabet) :=
  ⟨rfl, fingerprint_is_truncated_sha256 msgC5 ["m1", "m2"] rfl⟩

/-- C6 (confirmed): the fingerprint is a pure function of the tuple
(fromChannelId, fromMessageId, text-or-caption, mediaIds): two messages
identical in that tuple get identical fingerprints, whatever their
channelId, messageId, forwardFromId or any other field. -/
theorem fingerprint_ignores_observation_ids (a b : Message)
    (h1 : a.from_channel_id = b.from_channel_id)
    (h2 : a.from_message_id = b.from_message_id)
    (h3 : effText a = effText b)
    (h4 : a.media_ids = b.media_ids) :
    genFingerprint a = genFingerprint b := by
  unfold genFingerprint
  rw [h1, h2, h3, h4]

/-- C6 witness: same lineage/text/media tuple, different channel_id,
message_id and forward_from_id. -/
def msgC6a : Message :=
  { from_id := some 4, channel_id := some 1, message_id := some 11,
    from_channel_id := some 10, from_message_id := some 99,
    forward_from_id := some 3, text := some "same text", caption := none,
    media_ids := some ["m"], fingerprint := none,
    significant_text := some false, chat_id := none }

def msgC6b : Message :=
  { from_id := some 4, channel_id := some 2, message_id := some 22,
    from_channel_id := some 10, from_message_id := some 99,
    forward_from_id := some 5, text := some "same text", caption := none,
    media_ids := some ["m"], fingerprint := none,
    significant_text := some false, chat_id := none }

theorem fingerprint_ignores_observation_ids_witness :
    msgC6a.channel_id ≠ msgC6b.channel_id ∧ msgC6a.message_id ≠ msgC6b.message_id ∧
      msgC6a.forward_from_id ≠ msgC6b.forward_from_id ∧
      genFingerprint msgC6a = genFingerprint msgC6b :=
  ⟨by decide, by decide, by decide,
    fingerprint_ignores_observation_ids msgC6a msgC6b rfl rfl rfl rfl⟩

/-- C7 (confirmed): for comparable operands with equal stored fingerprints
the cascade short-circuits at its first rule and returns a match, whatever
the later rules would have said. -/
theorem equal_fingerprints_short_circuit (a b : Message)
    (ha : is_comparable a = true) (hb : is_comparable b = true)
    (hfp : a.fingerprint = b.fingerprint) :
    eqMsg a b = .ok .matched := by
  unfold eqMsg
  rw [ha]
  simp [hfp]

/-- C7 witness: two comparable messages with the same fingerprint whose
identity, lineage, text and media would all fail the later rules. -/
def msgC7a : Message :=
  { from_id := none, channel_id := some 1, message_id := some 11,
    from_channel_id := none, from_message_id := none,
    forward_from_id := none, text := none, caption := none,
    media_ids := some ["m1"], fingerprint := some "00112233aabbccdd",
    significant_text := some false, chat_id := some 1 }

def msgC7b : Message :=
  { from_id := none, channel_id := some 2, message_id := some 22,
    from_channel_id := none, from_message_id := none,
    forward_from_id := none, text := none, caption := none,
    media_ids := some ["zz"], fingerprint := some "00112233aabbccdd",
    significant_text := some false, chat_id := some 2 }

theorem equal_fingerprints_short_circuit_witness :
    is_comparable msgC7a = true ∧ is_comparable msgC7b = true ∧
      msgC7a.fingerprint = msgC7b.fingerprint ∧ eqMsg msgC7a msgC7b = .ok .matched :=
  ⟨rfl, rfl, rfl, equal_fingerprints_short_circuit msgC7a msgC7b rfl rfl rfl⟩

/- C1: which operand's comparability gates the cascade. -/

/-- A comparable left operand: ids present, media present, no forward. -/
def msgC1a : Message :=
  { from_id := none, channel_id := some 1, message_id := some 2,
    from_channel_id := none, from_message_id := none,
    forward_from_id := none, text := none, caption := none,
    media_ids := some ["m1"], fingerprint := some "0123456789abcdef",
    significant_text := some false, chat_id := some 1 }

/-- A right operand that fails comparability (no channel_id) yet carries
the same stored fingerprint. -/
def msgC1b : Message :=
  { from_id := none, channel_id := none, message_id := some 3,
    from_channel_id := none, from_message_id := none,
    forward_from_id := none, text := none, caption := none,
    media_ids := some ["m1"], fingerprint := some "0123456789abcdef",
    significant_text := some false, chat_id := none }

/-- C1 counterexample: with a comparable left operand and an incomparable
right operand, __eq__ returns the boolean match outcome, not the
incomparable sentinel — the claimed "either operand" gating fails. -/
theorem incomparable_right_still_boolean :
    is_comparable msgC1a = true ∧ is_comparable msgC1b = false ∧
      eqMsg msgC1a msgC1b = .ok .matched :=
  ⟨rfl, rfl, rfl⟩

/-- C1 amended: the incomparable outcome is produced exactly when the LEFT
operand fails comparability; the right operand's comparability is never
tested by __eq__. -/
theorem notImplemented_iff_left_incomparable (a b : Message) :
    eqMsg a b = .ok .notImplemented ↔ is_comparable a = false := by
  unfold eqMsg
  cases h : is_comparable a with
  | false => simp
  | true =>
    simp only [h, Bool.not_true, Bool.false_eq_true, if_false]
    constructor
    · intro hEq
      split at hEq
      · simp at hEq
      · split at hEq
        · simp at hEq
        · split at hEq
          · simp at hEq
          · split at hEq
            · simp at hEq
            · split at hEq
              · split at hEq
                · simp at hEq
                · split at hEq
                  · simp at hEq
                  · split at hEq
                    · simp at hEq
                    · simp at hEq
              · simp at hEq
    · intro hc
      cases hc

/- C2: the media-overlap step with the right operand's media absent. -/

/-- Left operand: comparable through its non-empty media list. -/
def msgC2a : Message :=
  { from_id := none, channel_id := some 1, message_id := some 2,
    from_channel_id := none, from_message_id := none,
    forward_from_id := none, text := none, caption := none,
    media_ids := some ["m1"], fingerprint := some "aaaaaaaaaaaaaaaa",
    significant_text := some false, chat_id := some 1 }

/-- Right operand: comparable through significant text, media_ids absent. -/
def msgC2b : Message :=
  { from_id := none, channel_id := some 3, message_id := some 4,
    from_channel_id := none, from_message_id := none,
    forward_from_id := none,
    text := some "a sufficiently long text: it clearly exceeds the sixty-four character bar",
    caption := none, media_ids := none, fingerprint := some "bbbbbbbbbbbbbbbb",
    significant_text := some true, chat_id := some 3 }

/-- C2 (code bug): both operands are comparable, yet the cascade raises
TypeError at list(set(self.media_ids) & set(other.media_ids)) because
other.media_ids is None — instead of treating the absent collection as
empty and returning an outcome. -/
theorem eq_raises_on_absent_other_media :
    is_comparable msgC2a = true ∧ is_comparable msgC2b = true ∧
      eqMsg msgC2a msgC2b = .error "TypeError" :=
  ⟨rfl, rfl, rfl⟩

/-- C3 (code bug): constructing a message whose media_ids is absent raises
TypeError inside __gen_fingerprint (",".join(None)) instead of defaulting
the collection to empty and producing a fingerprint. -/
theorem construction_raises_on_absent_media :
    mkMessage none (some 1) (some 2) none none none (some "hello") none none =
      .error "TypeError" := rfl

/- C4: construction with channelId absent. -/

/-- C4 counterexample: a message constructed with channelId absent is NOT
successfully constructed — chat-id derivation int(str(None)...) raises
ValueError before any other derived field is computed. -/
theorem construction_raises_on_absent_channel :
    mkMessage none none (some 5) none none none (some "hi") none (some []) =
      .error "ValueError" := rfl

/-- C4 amended: with channelId absent, construction always fails fast with
the invalid-argument error from chat-id derivation (whatever the other
attributes), and any message value lacking channelId is incomparable, so
comparing it yields the incomparable outcome rather than false. -/
theorem absent_channel_fails_construction_and_is_incomparable :
    (∀ fi mi fci fmi ffi t c mids,
      mkMessage fi none mi fci fmi ffi t c mids = .error "ValueError") ∧
    (∀ a b : Message, a.channel_id = none → eqMsg a b = .ok .notImplemented) := by
  constructor
  · intro fi mi fci fmi ffi t c mids
    rfl
  · intro a b h
    have hcmp : is_comparable a = false := by
      unfold is_comparable
      rw [h]
      simp [truthyInt]
    unfold eqMsg
    rw [hcmp]
    simp

/- C8: the text-similarity rule's threshold and its strict comparison. -/

/-- C8 (confirmed): when the left operand is comparable with significant
text and empty media, and the three earlier cascade rules fail, the result
is a match exactly when the text ratio is strictly greater than 0.75 —
lowered to 0.66 exactly when the left operand's from_channel_id and
from_message_id are both present (present meaning Python-truthy: non-null
and non-zero, cf. C10).  Ratio equal to the threshold does not match. -/
theorem text_threshold_strict (a b : Message)
    (hcmp : is_comparable a = true)
    (hfp : a.fingerprint ≠ b.fingerprint)
    (hsm : sameMessageB a b = false)
    (hsf : sameForwardedB a b = false)
    (hsig : truthyBool a.significant_text = true)
    (hmed : truthyList a.media_ids = false) :
    eqMsg a b = .ok .matched ↔
      (if truthyInt a.from_channel_id && truthyInt a.from_message_id
        then (33 : ℚ) / 50 else 3 / 4) < sameTextRatioQ a b := by
  unfold eqMsg
  rw [hcmp, if_neg hfp, hsm, hsf, hsig, hmed]
  simp only [Bool.not_true, Bool.false_eq_true, if_false, Bool.true_and]
  unfold textRatioLimit
  split_ifs with h h1 h2 <;> simp_all

/-- C8 witness: concrete comparable operands reaching the text rule. -/
def msgC8a : Message :=
  { from_id := none, channel_id := some 1, message_id := some 2,
    from_channel_id := none, from_message_id := none,
    forward_from_id := none,
    text := some "left operand text, long enough that the significance flag is honest here",
    caption := none, media_ids := some [], fingerprint := some "aaaaaaaaaaaaaaaa",
    significant_text := some true, chat_id := some 1 }

def msgC8b : Message :=
  { from_id := none, channel_id := some 3, message_id := some 4,
    from_channel_id := none, from_message_id := none,
    forward_from_id := none, text := some "other text",
    caption := none, media_ids := some [], fingerprint := some "bbbbbbbbbbbbbbbb",
    significant_text := some false, chat_id := some 3 }

theorem text_threshold_strict_witness :
    is_comparable msgC8a = true ∧ truthyList msgC8a.media_ids = false ∧
      (eqMsg msgC8a msgC8b = .ok .matched ↔
        (if truthyInt msgC8a.from_channel_id && truthyInt msgC8a.from_message_id
          then (33 : ℚ) / 50 else 3 / 4) < sameTextRatioQ msgC8a msgC8b) :=
  ⟨rfl, rfl, text_threshold_strict msgC8a msgC8b rfl (by decide) rfl rfl rfl rfl⟩

/- C9: the content-only media-overlap rule. -/

theorem dedup_filter_length_eq_card_inter (al bl : List String) :
    (al.dedup.filter (fun x => decide (x ∈ bl))).length =
      (al.toFinset ∩ bl.toFinset).card := by
  rw [← List.toFinset_card_of_nodup ((List.nodup_dedup al).filter _)]
  congr 1
  ext x
  simp [List.mem_filter, List.mem_dedup, Finset.mem_inter]

/-- C9 (confirmed): when the left operand is comparable with a non-empty
media list, the right operand's media list is present, and every earlier
rule (fingerprint, identity, lineage, strict text rule, text-assisted
media rule) has failed, the overlap ratio is the cardinality of the set
intersection over the longer list's length, and the outcome is a match
exactly when that ratio is at least 0.66 (an inclusive bound). -/
theorem media_overlap_rule (a b : Message) (bl : List String)
    (hcmp : is_comparable a = true)
    (hfp : a.fingerprint ≠ b.fingerprint)
    (hsm : sameMessageB a b = false)
    (hsf : sameForwardedB a b = false)
    (htx : (truthyBool a.significant_text &&
      decide (textRatioLimit a < sameTextRatioQ a b)) = false)
    (hmed : truthyList a.media_ids = true)
    (hbl : b.media_ids = some bl)
    (htx2 : (truthyBool a.significant_text &&
      decide (textRatioMediaLimit < sameTextRatioQ a b)) = false) :
    sameMediaRatioQ a b =
      (((a.media_ids.getD []).toFinset ∩ bl.toFinset).card : ℚ) /
        ((max (a.media_ids.getD []).length bl.length : Nat) : ℚ) ∧
    (eqMsg a b = .ok .matched ↔ (33 : ℚ) / 50 ≤ sameMediaRatioQ a b) := by
  constructor
  · unfold sameMediaRatioQ
    rw [hbl]
    simp only [Option.getD_some]
    rw [dedup_filter_length_eq_card_inter]
  · unfold eqMsg
    rw [hcmp, if_neg hfp, hsm, hsf, htx, hmed, hbl]
    simp only [Bool.not_true, Bool.false_eq_true, if_false, if_true]
    rw [htx2]
    simp only [Bool.false_eq_true, if_false]
    unfold mediaRatioLimit
    split_ifs with h <;> simp_all

/-- C9 witness: the spec's own example — media ["m1","m2","m3"] against
["m1","m2","m4"], no significant text, no shared identifiers. -/
def msgC9a : Message :=
  { from_id := none, channel_id := some 1, message_id := some 2,
    from_channel_id := none, from_message_id := none,
    forward_from_id := none, text := none, caption := none,
    media_ids := some ["m1", "m2", "m3"], fingerprint := some "aaaaaaaaaaaaaaaa",
    significant_text := some false, chat_id := some 1 }

def msgC9b : Message :=
  { from_id := none, channel_id := some 3, message_id := some 4,
    from_channel_id := none, from_message_id := none,
    forward_from_id := none, text := none, caption := none,
    media_ids := some ["m1", "m2", "m4"], fingerprint := some "bbbbbbbbbbbbbbbb",
    significant_text := some false, chat_id := some 3 }

theorem media_overlap_rule_witness :
    msgC9b.media_ids = some ["m1", "m2", "m4"] ∧
      (sameMediaRatioQ msgC9a msgC9b =
        (((msgC9a.media_ids.getD []).toFinset ∩ (["m1", "m2", "m4"] : List String).toFinset).card : ℚ) /
          ((max (msgC9a.media_ids.getD []).length (["m1", "m2", "m4"] : List String).length : Nat) : ℚ) ∧
      (eqMsg msgC9a msgC9b = .ok .matched ↔ (33 : ℚ) / 50 ≤ sameMediaRatioQ msgC9a msgC9b)) :=
  ⟨rfl, media_overlap_rule msgC9a msgC9b ["m1", "m2", "m4"] rfl (by decide) rfl rfl rfl rfl rfl rfl⟩

/- C10: zero-valued identifiers behave as absent (numeric truthiness). -/

/-- C10 (confirmed): presence checks are Python truthiness, so zero ids
count as absent: channel_id = 0 or message_id = 0 defeats comparability;
forward_from_id = 0 never triggers the self-forward exclusion (whatever
from_id is, including 0); and from_channel_id = 0 or from_message_id = 0
keeps the text threshold at the default 0.75 instead of lowering it. -/
theorem zero_ids_treated_as_absent :
    (∀ m : Message, m.channel_id = some 0 → is_comparable m = false) ∧
    (∀ m : Message, m.message_id = some 0 → is_comparable m = false) ∧
    (∀ m : Message, m.forward_from_id = some 0 → forwardSelfB m = false) ∧
    (∀ m : Message, m.from_channel_id = some 0 ∨ m.from_message_id = some 0 →
      textRatioLimit m = 3 / 4) := by
  refine ⟨?_, ?_, ?_, ?_⟩
  · intro m h
    unfold is_comparable
    rw [h]
    simp [truthyInt]
  · intro m h
    unfold is_comparable
    rw [h]
    simp [truthyInt]
  · intro m h
    unfold forwardSelfB
    rw [h]
    simp [truthyInt]
  · intro m h
    unfold textRatioLimit
    rcases h with h | h <;> rw [h] <;> simp [truthyInt]
